import Mathlib

/-!
Shallow embedding of the Thingpilot NB-IoT interface
(`tp_nbiot_interface.h` / `tp_nbiot_interface.cpp`).

The modem (`SaraN2 _modem`) lives outside this repository, so every
driver call is modelled as an oracle value passed in as an argument:
an `Int` status together with the values the driver writes into its
out-parameters.  Out-parameters of the interface functions are
modelled by returning them; a function that can return before writing
an out-parameter returns an `Option` (with `none` meaning the
out-parameter was not written and, for the data sent to the driver,
that no modem I/O took place).  C `int` is modelled as `Int`,
`uint8_t` values as `Nat` with `% 256` where overflow matters, and C
strings as `List Char`.  Unbounded `while` loops take a fuel
parameter; `none` marks fuel exhaustion and every theorem below either
supplies provably sufficient fuel or proves the loop exits early.
-/

namespace TP_NBIoT_Interface

/-- Possible `_driver` values (header lines 40-44). -/
def UNDEFINED : Int := 0

/-- Driver identity for the SARA N2 modem (header lines 40-44). -/
def SARAN2 : Int := 1

/-- Function return codes (header lines 48-55). -/
def NBIOT_OK : Int := 0

/-- Driver identity is not SARAN2 (header line 51). -/
def DRIVER_UNKNOWN : Int := 60

/-- Argument out of range (header line 52). -/
def EXCEEDS_MAX_VALUE : Int := 61

/-- Unit enum out of range (header line 53). -/
def INVALID_UNIT_VALUE : Int := 62

/-- `start`/`ready` timed out (header line 54). -/
def FAIL_TO_CONNECT : Int := 63

/-- EARFCN bounds for band 8 (header lines 19-22). -/
def EARFCN_B8_LOW : Int := 3450

/-- EARFCN bounds for band 8 (header lines 19-22). -/
def EARFCN_B8_HIGH : Int := 3799

/-- EARFCN bounds for band 20 (header lines 19-22). -/
def EARFCN_B20_LOW : Int := 6150

/-- EARFCN bounds for band 20 (header lines 19-22). -/
def EARFCN_B20_HIGH : Int := 6449

/-- LTE bands (header lines 59-64). -/
inductive TP_NBIoT_Band
  | BAND_8
  | BAND_20
  | BAND_UNKNOWN
deriving DecidableEq

/-- u-blox connection status matrix values (header lines 70-80). -/
inductive TP_Connection_Status
  | ACTIVE_NO_NETWORK_ACTIVITY
  | ACTIVE_SCANNING_FOR_BASE_STATION
  | ACTIVE_STARTING_REGISTRATION
  | ACTIVE_REGISTERED_RRC_CONNECTED
  | ACTIVE_REGISTERED_RRC_RELEASED
  | PSM_REGISTERED
  | REGISTRATION_FAILED
  | STATE_UNDEFINED
deriving DecidableEq

/-- Possible T3412 timer units (header lines 84-95). -/
inductive T3412_units
  | HR_320
  | HR_10
  | HR_1
  | MIN_10
  | MIN_1
  | SEC_30
  | SEC_2
  | DEACT
  | INVALID
deriving DecidableEq

/-- Possible T3324 timer units (header lines 99-106). -/
inductive T3324_units
  | MIN_6
  | MIN_1
  | SEC_2
  | DEACT
  | INVALID
deriving DecidableEq

/-- `ready` polling loop (cpp lines 62-78).  `at_results k` is the status
of the k-th `_modem.at()` call, `times k` the value `time(NULL)` returns
at the k-th timeout check. -/
def ready_loop (at_results : Nat → Int) (times : Nat → Int)
    (start_time timeout : Int) : Nat → Nat → Option Int
  | 0, _ => none
  | fuel + 1, k =>
    if at_results k = NBIOT_OK then some NBIOT_OK
    else if times k ≥ start_time + timeout then some FAIL_TO_CONNECT
    else ready_loop at_results times start_time timeout fuel (k + 1)

/-- `TP_NBIoT_Interface::ready` (cpp lines 54-82). -/
def ready (driver : Int) (at_results : Nat → Int) (times : Nat → Int)
    (start_time timeout : Int) (fuel : Nat) : Option Int :=
  if driver = SARAN2 then ready_loop at_results times start_time timeout fuel 0
  else some DRIVER_UNKNOWN

/-- `start`'s polling loop (cpp lines 146-169).  `polls k` is the result
of the k-th `get_module_network_status` call: its return status and the
`conn_status` it writes; `times k` is `time(NULL)` at the k-th timeout
check; `deactivate` is the status `deactivate_radio()` would return.
The loop condition is translated verbatim from cpp lines 149-151. -/
def start_loop (polls : Nat → Int × TP_Connection_Status) (times : Nat → Int)
    (start_time timeout deactivate : Int) : Nat → Nat → Option Int
  | 0, _ => none
  | fuel + 1, k =>
    let conn_status := (polls k).2
    if conn_status ≠ TP_Connection_Status.ACTIVE_REGISTERED_RRC_CONNECTED ∨
       conn_status ≠ TP_Connection_Status.ACTIVE_REGISTERED_RRC_RELEASED ∨
       conn_status ≠ TP_Connection_Status.PSM_REGISTERED then
      some NBIOT_OK
    else if times k ≥ start_time + timeout then
      if deactivate ≠ NBIOT_OK then some deactivate else some FAIL_TO_CONNECT
    else start_loop polls times start_time timeout deactivate fuel (k + 1)

/-- `TP_NBIoT_Interface::start` (cpp lines 99-175).  The five
configuration arguments are the statuses of `enable_autoconnect`,
`enable_cell_reselection`, `enable_sim_power_save_mode`,
`enable_power_save_mode` and `reboot_modem`; the initial
`get_module_network_status` call at cpp line 139 consumes poll index 0,
so the loop starts polling at index 1. -/
def start (driver : Int)
    (autoconnect cell_reselection sim_psm module_psm reboot : Int)
    (polls : Nat → Int × TP_Connection_Status) (times : Nat → Int)
    (start_time timeout deactivate : Int) (fuel : Nat) : Option Int :=
  if driver = SARAN2 then
    if autoconnect ≠ NBIOT_OK then some autoconnect
    else if cell_reselection ≠ NBIOT_OK then some cell_reselection
    else if sim_psm ≠ NBIOT_OK then some sim_psm
    else if module_psm ≠ NBIOT_OK then some module_psm
    else if reboot ≠ NBIOT_OK then some reboot
    else start_loop polls times start_time timeout deactivate fuel 1
  else some DRIVER_UNKNOWN

/-- `TP_NBIoT_Interface::get_connection_status` (cpp lines 530-554).
`cscon` = (status, urc, connected) and `cereg` = (status, urc,
reg_status) are what `_modem.cscon` / `_modem.cereg` return and write;
`none` means the function returned before both out-parameters were
written. -/
def get_connection_status (driver : Int) (cscon cereg : Int × Int × Int) :
    Int × Option (Int × Int) :=
  if driver = SARAN2 then
    if cscon.1 ≠ NBIOT_OK then (cscon.1, none)
    else if cereg.1 ≠ NBIOT_OK then (cereg.1, none)
    else (NBIOT_OK, some (cscon.2.2, cereg.2.2))
  else (DRIVER_UNKNOWN, none)

/-- `TP_NBIoT_Interface::get_power_save_mode_status` (cpp lines 432-448).
`npsmr` = (status, psm) from `_modem.npsmr`. -/
def get_power_save_mode_status (driver : Int) (npsmr : Int × Int) :
    Int × Option Int :=
  if driver = SARAN2 then
    if npsmr.1 ≠ NBIOT_OK then (npsmr.1, none)
    else (NBIOT_OK, some npsmr.2)
  else (DRIVER_UNKNOWN, none)

/-- `TP_NBIoT_Interface::get_module_network_status` (cpp lines 464-520).
On success returns `NBIOT_OK` together with the four out-parameters
(status, connected, registered, psm); the if-cascade is translated
verbatim from cpp lines 483-514. -/
def get_module_network_status (driver : Int) (cscon cereg : Int × Int × Int)
    (npsmr : Int × Int) : Int × Option (TP_Connection_Status × Int × Int × Int) :=
  if driver = SARAN2 then
    match get_connection_status driver cscon cereg with
    | (func_status, none) => (func_status, none)
    | (_, some (connected, registered)) =>
      match get_power_save_mode_status driver npsmr with
      | (func_status, none) => (func_status, none)
      | (_, some psm) =>
        let status :=
          if registered = 0 ∧ connected = 0 ∧ psm = 0 then
            TP_Connection_Status.ACTIVE_NO_NETWORK_ACTIVITY
          else if registered = 2 ∧ connected = 0 ∧ psm = 0 then
            TP_Connection_Status.ACTIVE_SCANNING_FOR_BASE_STATION
          else if registered = 2 ∧ connected = 1 ∧ psm = 0 then
            TP_Connection_Status.ACTIVE_STARTING_REGISTRATION
          else if (registered = 1 ∨ registered = 5) ∧ (connected = 1 ∧ psm = 0) then
            TP_Connection_Status.ACTIVE_REGISTERED_RRC_CONNECTED
          else if (registered = 1 ∨ registered = 5) ∧ (connected = 0 ∧ psm = 0) then
            TP_Connection_Status.ACTIVE_REGISTERED_RRC_RELEASED
          else if (registered = 1 ∨ registered = 5) ∧ (connected = 0 ∧ psm = 1) then
            TP_Connection_Status.PSM_REGISTERED
          else if registered = 3 then
            TP_Connection_Status.REGISTRATION_FAILED
          else
            TP_Connection_Status.STATE_UNDEFINED
        (NBIOT_OK, some (status, connected, registered, psm))
  else (DRIVER_UNKNOWN, none)

/-- `TP_NBIoT_Interface::get_nuestats` (cpp lines 628-644).
`modem_status` is what `_modem.nuestats` returns. -/
def get_nuestats (driver : Int) (modem_status : Int) : Int :=
  if driver = SARAN2 then
    if modem_status ≠ NBIOT_OK then modem_status else NBIOT_OK
  else DRIVER_UNKNOWN

/-- `TP_NBIoT_Interface::get_band` (cpp lines 589-620).  `nuestats` =
(status of the `get_nuestats` modem call, the `earfcn` field parsed
into `stats.parameters` by the driver, which lives outside `src/`). -/
def get_band (driver : Int) (nuestats : Int × Int) : Int × Option TP_NBIoT_Band :=
  if driver = SARAN2 then
    let status := get_nuestats driver nuestats.1
    if status ≠ NBIOT_OK then (status, none)
    else if nuestats.2 ≥ EARFCN_B8_LOW ∧ nuestats.2 ≤ EARFCN_B8_HIGH then
      (NBIOT_OK, some TP_NBIoT_Band.BAND_8)
    else if nuestats.2 ≥ EARFCN_B20_LOW ∧ nuestats.2 ≤ EARFCN_B20_HIGH then
      (NBIOT_OK, some TP_NBIoT_Band.BAND_20)
    else (NBIOT_OK, some TP_NBIoT_Band.BAND_UNKNOWN)
  else (DRIVER_UNKNOWN, none)

/-- The division loop of `dec_to_bin_5_bit` (cpp lines 1570-1577):
remainders of `multiples` modulo 2, least significant first.  The
source writes into `int buffer[8]`; the fuel 8 mirrors that bound
(callers guarantee `multiples ≤ 31`, so at most 5 iterations run). -/
def dec_to_bin_buffer : Nat → Nat → List Nat
  | 0, _ => []
  | fuel + 1, multiples =>
    if multiples > 0 then multiples % 2 :: dec_to_bin_buffer fuel (multiples / 2)
    else []

/-- `TP_NBIoT_Interface::dec_to_bin_5_bit` (cpp lines 1568-1592):
left-pad with `'0'` to 5 characters, then emit the collected
remainders most significant first.  Faithful for `multiples ≤ 31`
(the only values the callers pass; beyond that the C code indexes the
output buffer with a negative `padding` and is undefined). -/
def dec_to_bin_5_bit (multiples : Nat) : List Char :=
  let buffer := dec_to_bin_buffer 8 multiples
  let padding := 5 - buffer.length
  List.replicate padding '0' ++ buffer.reverse.map (fun b => if b = 1 then '1' else '0')

/-- The T3412 unit-to-3-characters switch of `set_tau_timer`
(cpp lines 1239-1285); `none` is the `default:` branch, which returns
`INVALID_UNIT_VALUE`. -/
def t3412_unit_chars : T3412_units → Option (List Char)
  | T3412_units.HR_320 => some ['1', '1', '0']
  | T3412_units.HR_10 => some ['0', '1', '0']
  | T3412_units.HR_1 => some ['0', '0', '1']
  | T3412_units.MIN_10 => some ['0', '0', '0']
  | T3412_units.MIN_1 => some ['1', '0', '1']
  | T3412_units.SEC_30 => some ['1', '0', '0']
  | T3412_units.SEC_2 => some ['0', '1', '1']
  | T3412_units.DEACT => some ['1', '1', '1']
  | T3412_units.INVALID => none

/-- The T3324 unit-to-3-characters switch of `set_active_time`
(cpp lines 1429-1455). -/
def t3324_unit_chars : T3324_units → Option (List Char)
  | T3324_units.MIN_6 => some ['0', '1', '0']
  | T3324_units.MIN_1 => some ['0', '0', '1']
  | T3324_units.SEC_2 => some ['0', '0', '0']
  | T3324_units.DEACT => some ['1', '1', '1']
  | T3324_units.INVALID => none

/-- `TP_NBIoT_Interface::set_tau_timer` (cpp lines 1224-1304).
`modem_status` is what `_modem.set_t3412_timer` would return.  The
second component is the 9-byte `data` buffer handed to the driver
(3 unit characters, 5 magnitude characters, NUL at byte 8); `none`
means the function returned without any modem I/O. -/
def set_tau_timer (driver : Int) (modem_status : Int) (unit : T3412_units)
    (multiples : Nat) : Int × Option (List Char) :=
  if multiples > 31 then (EXCEEDS_MAX_VALUE, none)
  else
    match t3412_unit_chars unit with
    | none => (INVALID_UNIT_VALUE, none)
    | some unit_char =>
      let data := unit_char ++ dec_to_bin_5_bit multiples ++ [Char.ofNat 0]
      if driver = SARAN2 then
        if modem_status ≠ NBIOT_OK then (modem_status, some data)
        else (NBIOT_OK, some data)
      else (DRIVER_UNKNOWN, none)

/-- `TP_NBIoT_Interface::set_active_time` (cpp lines 1414-1474). -/
def set_active_time (driver : Int) (modem_status : Int) (unit : T3324_units)
    (multiples : Nat) : Int × Option (List Char) :=
  if multiples > 31 then (EXCEEDS_MAX_VALUE, none)
  else
    match t3324_unit_chars unit with
    | none => (INVALID_UNIT_VALUE, none)
    | some unit_char =>
      let data := unit_char ++ dec_to_bin_5_bit multiples ++ [Char.ofNat 0]
      if driver = SARAN2 then
        if modem_status ≠ NBIOT_OK then (modem_status, some data)
        else (NBIOT_OK, some data)
      else (DRIVER_UNKNOWN, none)

/-- `TP_NBIoT_Interface::get_tau_timer(char*)` (cpp lines 1312-1328).
`modem` = (status of `_modem.get_t3412_timer`, the timer string it
writes into the caller's buffer). -/
def get_tau_timer (driver : Int) (modem : Int × List Char) : Int × Option (List Char) :=
  if driver = SARAN2 then
    if modem.1 ≠ NBIOT_OK then (modem.1, none) else (NBIOT_OK, some modem.2)
  else (DRIVER_UNKNOWN, none)

/-- `TP_NBIoT_Interface::get_active_time(char*)` (cpp lines 1482-1498). -/
def get_active_time (driver : Int) (modem : Int × List Char) : Int × Option (List Char) :=
  if driver = SARAN2 then
    if modem.1 ≠ NBIOT_OK then (modem.1, none) else (NBIOT_OK, some modem.2)
  else (DRIVER_UNKNOWN, none)

/-- The unit-decoding strncmp cascade of
`get_tau_timer(T3412_units&, uint8_t&)` (cpp lines 1350-1385). -/
def t3412_unit_of (timer : List Char) : T3412_units :=
  if timer.take 3 = ['1', '1', '0'] then T3412_units.HR_320
  else if timer.take 3 = ['0', '1', '0'] then T3412_units.HR_10
  else if timer.take 3 = ['0', '0', '1'] then T3412_units.HR_1
  else if timer.take 3 = ['0', '0', '0'] then T3412_units.MIN_10
  else if timer.take 3 = ['1', '0', '1'] then T3412_units.MIN_1
  else if timer.take 3 = ['1', '0', '0'] then T3412_units.SEC_30
  else if timer.take 3 = ['0', '1', '1'] then T3412_units.SEC_2
  else if timer.take 3 = ['1', '1', '1'] then T3412_units.DEACT
  else T3412_units.INVALID

/-- The unit-decoding strncmp cascade of
`get_active_time(T3324_units&, uint8_t&)` (cpp lines 1520-1539). -/
def t3324_unit_of (timer : List Char) : T3324_units :=
  if timer.take 3 = ['0', '1', '0'] then T3324_units.MIN_6
  else if timer.take 3 = ['0', '0', '1'] then T3324_units.MIN_1
  else if timer.take 3 = ['0', '0', '0'] then T3324_units.SEC_2
  else if timer.take 3 = ['1', '1', '1'] then T3324_units.DEACT
  else T3324_units.INVALID

/-- The magnitude loop shared verbatim by both timer getters
(cpp lines 1387-1401 and 1541-1555): positions 3..7 carry place values
16, 8, 4, 2, 1, and each position holding `'1'` (ASCII 49) is ADDED to
the caller's `uint8_t multiples` out-parameter (`% 256` models the
`uint8_t` wrap-around); the out-parameter is never cleared first. -/
def decode_timer_multiples (timer : List Char) (multiples : Nat) : Nat :=
  List.foldl
    (fun m p => if timer.getD p.1 ' ' = '1' then (m + p.2) % 256 else m)
    multiples ([(3, 16), (4, 8), (5, 4), (6, 2), (7, 1)] : List (Nat × Nat))

/-- `TP_NBIoT_Interface::get_tau_timer(T3412_units&, uint8_t&)`
(cpp lines 1339-1404).  `unit`/`multiples` are the values of the two
out-parameters on entry; they are returned unchanged on the early
error return. -/
def get_tau_timer_um (driver : Int) (modem : Int × List Char)
    (unit : T3412_units) (multiples : Nat) : Int × T3412_units × Nat :=
  match get_tau_timer driver modem with
  | (status, none) => (status, unit, multiples)
  | (_, some timer) =>
    (NBIOT_OK, t3412_unit_of timer, decode_timer_multiples timer multiples)

/-- `TP_NBIoT_Interface::get_active_time(T3324_units&, uint8_t&)`
(cpp lines 1509-1558). -/
def get_active_time_um (driver : Int) (modem : Int × List Char)
    (unit : T3324_units) (multiples : Nat) : Int × T3324_units × Nat :=
  match get_active_time driver modem with
  | (status, none) => (status, unit, multiples)
  | (_, some timer) =>
    (NBIOT_OK, t3324_unit_of timer, decode_timer_multiples timer multiples)

/-- The chunking loop of `coap_post` (cpp lines 1179-1209) on the
remaining byte count.  `resp k` is the status `_modem.coap_post`
returns for the k-th transmitted block of this invocation; `bn` counts
blocks from 0 and `bn % 256` is the `uint8_t send_block_number` value
handed to the driver.  Each list entry is (block number as passed,
more-block flag, bytes carried).  One fuel unit is spent per block;
`none` marks fuel exhaustion (never reached with fuel ≥ remaining,
see `coap_post_loop_isSome`). -/
def coap_post_loop (resp : Nat → Int) : Nat → Nat → Nat →
    Option (Int × List (Nat × Nat × Nat))
  | _, 0, _ => some (NBIOT_OK, [])
  | 0, _ + 1, _ => none
  | fuel + 1, r + 1, bn =>
    let remaining := r + 1
    let avail := if remaining > 512 then 512 else remaining
    let more : Nat := if remaining > 512 then 1 else 0
    let status := resp bn
    let block := (bn % 256, more, avail)
    if status ≠ NBIOT_OK then some (status, [block])
    else
      match coap_post_loop resp fuel (remaining - avail) (bn + 1) with
      | none => none
      | some (s, l) => some (s, block :: l)

/-- `TP_NBIoT_Interface::coap_post` (cpp lines 1159-1214).
`load_profile` / `select_interface` are the statuses of
`_modem.load_profile(COAP_PROFILE_0)` and
`_modem.select_coap_at_interface()`.  Returns the final status and the
blocks transmitted; fuel `buffer_len` always suffices since every
block carries at least one byte. -/
def coap_post (driver : Int) (load_profile select_interface : Int)
    (resp : Nat → Int) (buffer_len : Nat) : Int × List (Nat × Nat × Nat) :=
  if driver = SARAN2 then
    if load_profile ≠ NBIOT_OK then (load_profile, [])
    else if select_interface ≠ NBIOT_OK then (select_interface, [])
    else
      match coap_post_loop resp buffer_len buffer_len 0 with
      | none => (NBIOT_OK, [])
      | some (s, l) => (s, l)
  else (DRIVER_UNKNOWN, [])

/-- The sum the decode loop is claimed to accumulate: place values
16, 8, 4, 2, 1 for each of positions 3..7 holding character `'1'`
(written from the claim, to be compared with the source-derived
`decode_timer_multiples`). -/
def timer_magnitude_sum (timer : List Char) : Nat :=
  (if timer.getD 3 ' ' = '1' then 16 else 0) +
  (if timer.getD 4 ' ' = '1' then 8 else 0) +
  (if timer.getD 5 ' ' = '1' then 4 else 0) +
  (if timer.getD 6 ' ' = '1' then 2 else 0) +
  (if timer.getD 7 ' ' = '1' then 1 else 0)

end TP_NBIoT_Interface

open TP_NBIoT_Interface

/-- C1: for every (registered, connected, psm) triple with
registered ∈ {0,1,2,3,5} and connected, psm ∈ {0,1}, when both
indicator reads succeed (modem statuses `NBIOT_OK`, arbitrary URC
values `u1`, `u2`), `get_module_network_status` returns `NBIOT_OK` and
sets the status out-parameter to exactly the §4.5 table value, row by
row; no other status value is reachable on this domain. -/
theorem get_module_network_status_table :
    (∀ u1 u2 : Int, get_module_network_status SARAN2 (NBIOT_OK, u1, 0) (NBIOT_OK, u2, 0) (NBIOT_OK, 0)
      = (NBIOT_OK, some (TP_Connection_Status.ACTIVE_NO_NETWORK_ACTIVITY, 0, 0, 0))) ∧
    (∀ u1 u2 : Int, get_module_network_status SARAN2 (NBIOT_OK, u1, 0) (NBIOT_OK, u2, 2) (NBIOT_OK, 0)
      = (NBIOT_OK, some (TP_Connection_Status.ACTIVE_SCANNING_FOR_BASE_STATION, 0, 2, 0))) ∧
    (∀ u1 u2 : Int, get_module_network_status SARAN2 (NBIOT_OK, u1, 1) (NBIOT_OK, u2, 2) (NBIOT_OK, 0)
      = (NBIOT_OK, some (TP_Connection_Status.ACTIVE_STARTING_REGISTRATION, 1, 2, 0))) ∧
    (∀ u1 u2 : Int, get_module_network_status SARAN2 (NBIOT_OK, u1, 1) (NBIOT_OK, u2, 1) (NBIOT_OK, 0)
      = (NBIOT_OK, some (TP_Connection_Status.ACTIVE_REGISTERED_RRC_CONNECTED, 1, 1, 0))) ∧
    (∀ u1 u2 : Int, get_module_network_status SARAN2 (NBIOT_OK, u1, 1) (NBIOT_OK, u2, 5) (NBIOT_OK, 0)
      = (NBIOT_OK, some (TP_Connection_Status.ACTIVE_REGISTERED_RRC_CONNECTED, 1, 5, 0))) ∧
    (∀ u1 u2 : Int, get_module_network_status SARAN2 (NBIOT_OK, u1, 0) (NBIOT_OK, u2, 1) (NBIOT_OK, 0)
      = (NBIOT_OK, some (TP_Connection_Status.ACTIVE_REGISTERED_RRC_RELEASED, 0, 1, 0))) ∧
    (∀ u1 u2 : Int, get_module_network_status SARAN2 (NBIOT_OK, u1, 0) (NBIOT_OK, u2, 5) (NBIOT_OK, 0)
      = (NBIOT_OK, some (TP_Connection_Status.ACTIVE_REGISTERED_RRC_RELEASED, 0, 5, 0))) ∧
    (∀ u1 u2 : Int, get_module_network_status SARAN2 (NBIOT_OK, u1, 0) (NBIOT_OK, u2, 1) (NBIOT_OK, 1)
      = (NBIOT_OK, some (TP_Connection_Status.PSM_REGISTERED, 0, 1, 1))) ∧
    (∀ u1 u2 : Int, get_module_network_status SARAN2 (NBIOT_OK, u1, 0) (NBIOT_OK, u2, 5) (NBIOT_OK, 1)
      = (NBIOT_OK, some (TP_Connection_Status.PSM_REGISTERED, 0, 5, 1))) ∧
    (∀ u1 u2 : Int, get_module_network_status SARAN2 (NBIOT_OK, u1, 0) (NBIOT_OK, u2, 3) (NBIOT_OK, 0)
      = (NBIOT_OK, some (TP_Connection_Status.REGISTRATION_FAILED, 0, 3, 0))) ∧
    (∀ u1 u2 : Int, get_module_network_status SARAN2 (NBIOT_OK, u1, 0) (NBIOT_OK, u2, 3) (NBIOT_OK, 1)
      = (NBIOT_OK, some (TP_Connection_Status.REGISTRATION_FAILED, 0, 3, 1))) ∧
    (∀ u1 u2 : Int, get_module_network_status SARAN2 (NBIOT_OK, u1, 1) (NBIOT_OK, u2, 3) (NBIOT_OK, 0)
      = (NBIOT_OK, some (TP_Connection_Status.REGISTRATION_FAILED, 1, 3, 0))) ∧
    (∀ u1 u2 : Int, get_module_network_status SARAN2 (NBIOT_OK, u1, 1) (NBIOT_OK, u2, 3) (NBIOT_OK, 1)
      = (NBIOT_OK, some (TP_Connection_Status.REGISTRATION_FAILED, 1, 3, 1))) ∧
    (∀ u1 u2 : Int, get_module_network_status SARAN2 (NBIOT_OK, u1, 0) (NBIOT_OK, u2, 0) (NBIOT_OK, 1)
      = (NBIOT_OK, some (TP_Connection_Status.STATE_UNDEFINED, 0, 0, 1))) ∧
    (∀ u1 u2 : Int, get_module_network_status SARAN2 (NBIOT_OK, u1, 1) (NBIOT_OK, u2, 0) (NBIOT_OK, 0)
      = (NBIOT_OK, some (TP_Connection_Status.STATE_UNDEFINED, 1, 0, 0))) ∧
    (∀ u1 u2 : Int, get_module_network_status SARAN2 (NBIOT_OK, u1, 1) (NBIOT_OK, u2, 0) (NBIOT_OK, 1)
      = (NBIOT_OK, some (TP_Connection_Status.STATE_UNDEFINED, 1, 0, 1))) ∧
    (∀ u1 u2 : Int, get_module_network_status SARAN2 (NBIOT_OK, u1, 0) (NBIOT_OK, u2, 2) (NBIOT_OK, 1)
      = (NBIOT_OK, some (TP_Connection_Status.STATE_UNDEFINED, 0, 2, 1))) ∧
    (∀ u1 u2 : Int, get_module_network_status SARAN2 (NBIOT_OK, u1, 1) (NBIOT_OK, u2, 2) (NBIOT_OK, 1)
      = (NBIOT_OK, some (TP_Connection_Status.STATE_UNDEFINED, 1, 2, 1))) ∧
    (∀ u1 u2 : Int, get_module_network_status SARAN2 (NBIOT_OK, u1, 1) (NBIOT_OK, u2, 1) (NBIOT_OK, 1)
      = (NBIOT_OK, some (TP_Connection_Status.STATE_UNDEFINED, 1, 1, 1))) ∧
    (∀ u1 u2 : Int, get_module_network_status SARAN2 (NBIOT_OK, u1, 1) (NBIOT_OK, u2, 5) (NBIOT_OK, 1)
      = (NBIOT_OK, some (TP_Connection_Status.STATE_UNDEFINED, 1, 5, 1))) :=
  ⟨fun _ _ => rfl, fun _ _ => rfl, fun _ _ => rfl, fun _ _ => rfl, fun _ _ => rfl,
   fun _ _ => rfl, fun _ _ => rfl, fun _ _ => rfl, fun _ _ => rfl, fun _ _ => rfl,
   fun _ _ => rfl, fun _ _ => rfl, fun _ _ => rfl, fun _ _ => rfl, fun _ _ => rfl,
   fun _ _ => rfl, fun _ _ => rfl, fun _ _ => rfl, fun _ _ => rfl, fun _ _ => rfl⟩

/-- C3 (code bug): a run in which the modem never reaches a registered
state (every poll reports `ACTIVE_SCANNING_FOR_BASE_STATION`, all
configuration steps and the reboot succeed) still makes `start` exit
its polling loop on the very first iteration and return `NBIOT_OK`,
never `FAIL_TO_CONNECT`: the loop condition at cpp lines 149-151
(`!= ... || != ... || != ...`) is satisfied by every status. -/
theorem start_returns_ok_when_never_registered :
    start SARAN2 NBIOT_OK NBIOT_OK NBIOT_OK NBIOT_OK NBIOT_OK
      (fun _ => (NBIOT_OK, TP_Connection_Status.ACTIVE_SCANNING_FOR_BASE_STATION))
      (fun _ => 0) 0 300 NBIOT_OK 5 = some NBIOT_OK ∧
    NBIOT_OK ≠ FAIL_TO_CONNECT := by
  exact ⟨rfl, by decide⟩

/-- C5: for every driver identity, modem status, unit and every
multiples value strictly greater than 31, `set_tau_timer` and
`set_active_time` return `EXCEEDS_MAX_VALUE` (= 61) and hand no data
to the driver (no modem I/O). -/
theorem set_timers_reject_large_multiples :
    ∀ (driver modem_status : Int) (u : T3412_units) (v : T3324_units) (m : Nat),
      31 < m →
      set_tau_timer driver modem_status u m = (EXCEEDS_MAX_VALUE, none) ∧
      set_active_time driver modem_status v m = (EXCEEDS_MAX_VALUE, none) ∧
      EXCEEDS_MAX_VALUE = 61 := by
  intro driver modem_status u v m hm
  refine ⟨?_, ?_, rfl⟩ <;> · simp [set_tau_timer, set_active_time, hm]

/-- C5 witness at driver = UNDEFINED, multiples = 32. -/
theorem set_timers_reject_large_multiples_witness :
    set_tau_timer UNDEFINED NBIOT_OK T3412_units.HR_1 32 = (EXCEEDS_MAX_VALUE, none) ∧
    set_active_time UNDEFINED NBIOT_OK T3324_units.MIN_1 32 = (EXCEEDS_MAX_VALUE, none) ∧
    EXCEEDS_MAX_VALUE = 61 :=
  set_timers_reject_large_multiples UNDEFINED NBIOT_OK T3412_units.HR_1
    T3324_units.MIN_1 32 (by decide)

/-- C8: for every EARFCN value reported by the modem statistics, a
successful `get_band` sets the band out-parameter to `BAND_8` on
3450..3799, to `BAND_20` on 6150..6449, and to `BAND_UNKNOWN`
everywhere else. -/
theorem get_band_earfcn_mapping :
    ∀ e : Int, get_band SARAN2 (NBIOT_OK, e) =
      (NBIOT_OK, some
        (if 3450 ≤ e ∧ e ≤ 3799 then TP_NBIoT_Band.BAND_8
         else if 6150 ≤ e ∧ e ≤ 6449 then TP_NBIoT_Band.BAND_20
         else TP_NBIoT_Band.BAND_UNKNOWN)) := by
  intro e
  have hdu : get_band SARAN2 (NBIOT_OK, e) =
      (if 3450 ≤ e ∧ e ≤ 3799 then (NBIOT_OK, some TP_NBIoT_Band.BAND_8)
       else if 6150 ≤ e ∧ e ≤ 6449 then (NBIOT_OK, some TP_NBIoT_Band.BAND_20)
       else (NBIOT_OK, some TP_NBIoT_Band.BAND_UNKNOWN)) := rfl
  rw [hdu]
  by_cases h1 : 3450 ≤ e ∧ e ≤ 3799
  · rw [if_pos h1, if_pos h1]
  · rw [if_neg h1, if_neg h1]
    by_cases h2 : 6150 ≤ e ∧ e ≤ 6449
    · rw [if_pos h2, if_pos h2]
    · rw [if_neg h2, if_neg h2]

/-- C6: for every multiples value in [0,31] the 5-character magnitude
field produced by `dec_to_bin_5_bit` is the big-endian binary ASCII of
the value left-padded with `'0'` (0 gives "00000", 31 gives "11111");
in the `data` buffer `set_tau_timer` hands to the driver the 3 unit
characters occupy bytes 0..2, the magnitude occupies bytes 3..7 and a
NUL sits at byte 8; concretely `set_tau_timer(HR_10, 10)` passes
"01001010" (plus the NUL) to the driver. -/
theorem timer_encoding_format :
    (∀ m : Nat, m < 32 →
      dec_to_bin_5_bit m =
        [(if m / 16 % 2 = 1 then '1' else '0'),
         (if m / 8 % 2 = 1 then '1' else '0'),
         (if m / 4 % 2 = 1 then '1' else '0'),
         (if m / 2 % 2 = 1 then '1' else '0'),
         (if m % 2 = 1 then '1' else '0')]) ∧
    dec_to_bin_5_bit 0 = ['0', '0', '0', '0', '0'] ∧
    dec_to_bin_5_bit 31 = ['1', '1', '1', '1', '1'] ∧
    (∀ u : T3412_units, u ≠ T3412_units.INVALID → ∀ m : Nat, m < 32 →
      ((set_tau_timer SARAN2 NBIOT_OK u m).2.getD []).length = 9 ∧
      ((set_tau_timer SARAN2 NBIOT_OK u m).2.getD []).getD 8 ' ' = Char.ofNat 0 ∧
      (((set_tau_timer SARAN2 NBIOT_OK u m).2.getD []).take 3
        = (t3412_unit_chars u).getD []) ∧
      ((((set_tau_timer SARAN2 NBIOT_OK u m).2.getD []).drop 3).take 5
        = dec_to_bin_5_bit m)) ∧
    set_tau_timer SARAN2 NBIOT_OK T3412_units.HR_10 10 =
      (NBIOT_OK, some (['0', '1', '0', '0', '1', '0', '1', '0'] ++ [Char.ofNat 0])) := by
  refine ⟨by decide, by decide, by decide, ?_, by decide⟩
  intro u hu
  cases u <;> first
    | exact absurd rfl hu
    | decide

/-- C6 witness: the big-endian property at m = 10 and the layout
conjunct at (HR_10, 10). -/
theorem timer_encoding_format_witness :
    dec_to_bin_5_bit 10 =
      [(if 10 / 16 % 2 = 1 then '1' else '0'),
       (if 10 / 8 % 2 = 1 then '1' else '0'),
       (if 10 / 4 % 2 = 1 then '1' else '0'),
       (if 10 / 2 % 2 = 1 then '1' else '0'),
       (if 10 % 2 = 1 then '1' else '0')] ∧
    ((set_tau_timer SARAN2 NBIOT_OK T3412_units.HR_10 10).2.getD []).length = 9 :=
  ⟨timer_encoding_format.1 10 (by decide),
   (timer_encoding_format.2.2.2.1 T3412_units.HR_10 (by decide) 10 (by decide)).1⟩

/-- C2: for every encodable unit and every multiples value in [0,31],
encoding via `set_tau_timer` (resp. `set_active_time`) succeeds, and
decoding the produced string via `get_tau_timer(T3412_units&,uint8_t&)`
(resp. `get_active_time(T3324_units&,uint8_t&)`) — with the `multiples`
out-parameter entering as 0, the decode loop being additive (C9) —
yields back exactly (unit, multiples), whatever value `u0` the unit
out-parameter held on entry. -/
theorem timer_roundtrip :
    (∀ u u0 : T3412_units, ∀ m : Nat, m < 32 → u ≠ T3412_units.INVALID →
      (set_tau_timer SARAN2 NBIOT_OK u m).1 = NBIOT_OK ∧
      get_tau_timer_um SARAN2 (NBIOT_OK, (set_tau_timer SARAN2 NBIOT_OK u m).2.getD []) u0 0
        = (NBIOT_OK, u, m)) ∧
    (∀ v v0 : T3324_units, ∀ m : Nat, m < 32 → v ≠ T3324_units.INVALID →
      (set_active_time SARAN2 NBIOT_OK v m).1 = NBIOT_OK ∧
      get_active_time_um SARAN2 (NBIOT_OK, (set_active_time SARAN2 NBIOT_OK v m).2.getD []) v0 0
        = (NBIOT_OK, v, m)) := by
  constructor
  · intro u u0
    cases u <;> cases u0 <;> decide
  · intro v v0
    cases v <;> cases v0 <;> decide

/-- C2 witness: the spec's own scenario, (HR_10, 10). -/
theorem timer_roundtrip_witness :
    (set_tau_timer SARAN2 NBIOT_OK T3412_units.HR_10 10).1 = NBIOT_OK ∧
    get_tau_timer_um SARAN2
        (NBIOT_OK, (set_tau_timer SARAN2 NBIOT_OK T3412_units.HR_10 10).2.getD [])
        T3412_units.INVALID 0
      = (NBIOT_OK, T3412_units.HR_10, 10) :=
  timer_roundtrip.1 T3412_units.HR_10 T3412_units.INVALID 10 (by decide) (by decide)

/-- C9: on the success path of both decoded getters the 5-bit magnitude
is accumulated into the caller's `multiples` out-parameter: the final
value is the entry value plus the sum over positions 3..7 of the place
values 16, 8, 4, 2, 1 for each position holding `'1'` (as `uint8_t`
arithmetic, i.e. modulo 256), so the decoded magnitude alone is
returned exactly when the caller passes `multiples` initialized to 0. -/
theorem get_timer_decode_accumulates :
    ∀ (timer : List Char) (u0 : T3412_units) (v0 : T3324_units) (m0 : Nat),
      m0 < 256 →
      (get_tau_timer_um SARAN2 (NBIOT_OK, timer) u0 m0).2.2
        = (m0 + timer_magnitude_sum timer) % 256 ∧
      (get_active_time_um SARAN2 (NBIOT_OK, timer) v0 m0).2.2
        = (m0 + timer_magnitude_sum timer) % 256 ∧
      ((get_tau_timer_um SARAN2 (NBIOT_OK, timer) u0 m0).2.2
        = timer_magnitude_sum timer ↔ m0 = 0) := by
  intro timer u0 v0 m0 hm0
  have h1 : get_tau_timer SARAN2 (NBIOT_OK, timer) = (NBIOT_OK, some timer) := rfl
  have h2 : get_active_time SARAN2 (NBIOT_OK, timer) = (NBIOT_OK, some timer) := rfl
  simp only [get_tau_timer_um, get_active_time_um, h1, h2,
    decode_timer_multiples, timer_magnitude_sum, List.foldl]
  split_ifs <;> omega

/-- C9 witness: decoding "01001010" (magnitude 10) with the out-parameter
entering as 7 yields 17, not 10. -/
theorem get_timer_decode_accumulates_witness :
    (get_tau_timer_um SARAN2 (NBIOT_OK, ['0', '1', '0', '0', '1', '0', '1', '0'])
        T3412_units.INVALID 7).2.2
      = (7 + timer_magnitude_sum ['0', '1', '0', '0', '1', '0', '1', '0']) % 256 ∧
    (get_active_time_um SARAN2 (NBIOT_OK, ['0', '1', '0', '0', '1', '0', '1', '0'])
        T3324_units.INVALID 7).2.2
      = (7 + timer_magnitude_sum ['0', '1', '0', '0', '1', '0', '1', '0']) % 256 ∧
    ((get_tau_timer_um SARAN2 (NBIOT_OK, ['0', '1', '0', '0', '1', '0', '1', '0'])
        T3412_units.INVALID 7).2.2
      = timer_magnitude_sum ['0', '1', '0', '0', '1', '0', '1', '0'] ↔ (7 : Nat) = 0) :=
  get_timer_decode_accumulates ['0', '1', '0', '0', '1', '0', '1', '0']
    T3412_units.INVALID T3324_units.INVALID 7 (by decide)

/-- C7 counterexample: `set_tau_timer` invoked with the driver identity
UNDEFINED (not SARAN2) and multiples = 32 returns `EXCEEDS_MAX_VALUE`,
not `DRIVER_UNKNOWN`, because its range check precedes the driver
check — refuting "every public operation returns DRIVER_UNKNOWN when
the driver identity is not SARAN2". -/
theorem set_tau_timer_undefined_driver_counterexample :
    set_tau_timer UNDEFINED NBIOT_OK T3412_units.HR_1 32 = (EXCEEDS_MAX_VALUE, none) ∧
    EXCEEDS_MAX_VALUE ≠ DRIVER_UNKNOWN := by
  exact ⟨rfl, by decide⟩

/-- C7 as amended: the return codes are exactly NBIOT_OK = 0,
DRIVER_UNKNOWN = 60, EXCEEDS_MAX_VALUE = 61, INVALID_UNIT_VALUE = 62,
FAIL_TO_CONNECT = 63; and whenever the driver identity is not SARAN2
every modelled public operation returns DRIVER_UNKNOWN and attempts no
modem I/O — for `set_tau_timer`/`set_active_time` only when their own
argument checks pass (an encodable unit and multiples ≤ 31), since
those checks run first (see C10). -/
theorem driver_unknown_dispatch :
    NBIOT_OK = 0 ∧ DRIVER_UNKNOWN = 60 ∧ EXCEEDS_MAX_VALUE = 61 ∧
    INVALID_UNIT_VALUE = 62 ∧ FAIL_TO_CONNECT = 63 ∧
    ∀ d : Int, d ≠ SARAN2 →
      (∀ ar t st tmo fuel, ready d ar t st tmo fuel = some DRIVER_UNKNOWN) ∧
      (∀ a b c e f polls times st tmo de fuel,
        start d a b c e f polls times st tmo de fuel = some DRIVER_UNKNOWN) ∧
      (∀ cscon cereg, get_connection_status d cscon cereg = (DRIVER_UNKNOWN, none)) ∧
      (∀ npsmr, get_power_save_mode_status d npsmr = (DRIVER_UNKNOWN, none)) ∧
      (∀ cscon cereg npsmr,
        get_module_network_status d cscon cereg npsmr = (DRIVER_UNKNOWN, none)) ∧
      (∀ ns, get_nuestats d ns = DRIVER_UNKNOWN) ∧
      (∀ nu, get_band d nu = (DRIVER_UNKNOWN, none)) ∧
      (∀ m, get_tau_timer d m = (DRIVER_UNKNOWN, none)) ∧
      (∀ m, get_active_time d m = (DRIVER_UNKNOWN, none)) ∧
      (∀ m u0 m0, get_tau_timer_um d m u0 m0 = (DRIVER_UNKNOWN, u0, m0)) ∧
      (∀ m v0 m0, get_active_time_um d m v0 m0 = (DRIVER_UNKNOWN, v0, m0)) ∧
      (∀ lp si resp L, coap_post d lp si resp L = (DRIVER_UNKNOWN, [])) ∧
      (∀ ms u mult, u ≠ T3412_units.INVALID → mult ≤ 31 →
        set_tau_timer d ms u mult = (DRIVER_UNKNOWN, none)) ∧
      (∀ ms v mult, v ≠ T3324_units.INVALID → mult ≤ 31 →
        set_active_time d ms v mult = (DRIVER_UNKNOWN, none)) := by
  refine ⟨rfl, rfl, rfl, rfl, rfl, ?_⟩
  intro d hd
  refine ⟨?_, ?_, ?_, ?_, ?_, ?_, ?_, ?_, ?_, ?_, ?_, ?_, ?_, ?_⟩
  · intro ar t st tmo fuel; simp [ready, hd]
  · intro a b c e f polls times st tmo de fuel; simp [start, hd]
  · intro cscon cereg; simp [get_connection_status, hd]
  · intro npsmr; simp [get_power_save_mode_status, hd]
  · intro cscon cereg npsmr; simp [get_module_network_status, hd]
  · intro ns; simp [get_nuestats, hd]
  · intro nu; simp [get_band, hd]
  · intro m; simp [get_tau_timer, hd]
  · intro m; simp [get_active_time, hd]
  · intro m u0 m0; simp [get_tau_timer_um, get_tau_timer, hd]
  · intro m v0 m0; simp [get_active_time_um, get_active_time, hd]
  · intro lp si resp L; simp [coap_post, hd]
  · intro ms u mult hu hmult
    have h31 : ¬ mult > 31 := by omega
    cases u <;> simp [set_tau_timer, t3412_unit_chars, h31, hd] at hu ⊢
  · intro ms v mult hv hmult
    have h31 : ¬ mult > 31 := by omega
    cases v <;> simp [set_active_time, t3324_unit_chars, h31, hd] at hv ⊢

/-- C7 witness: two concrete instances at driver = UNDEFINED, including
a setter with valid arguments. -/
theorem driver_unknown_dispatch_witness :
    ready UNDEFINED (fun _ => NBIOT_OK) (fun _ => 0) 0 10 3 = some DRIVER_UNKNOWN ∧
    set_tau_timer UNDEFINED NBIOT_OK T3412_units.HR_10 10 = (DRIVER_UNKNOWN, none) :=
  ⟨(driver_unknown_dispatch.2.2.2.2.2 UNDEFINED (by decide)).1 (fun _ => NBIOT_OK)
      (fun _ => 0) 0 10 3,
   (driver_unknown_dispatch.2.2.2.2.2 UNDEFINED (by decide)).2.2.2.2.2.2.2.2.2.2.2.2.1
      NBIOT_OK T3412_units.HR_10 10 (by decide) (by decide)⟩

/-- C10: the two timer setters validate their arguments before the
driver-identity check.  For every driver identity (including
UNDEFINED): multiples > 31 yields `EXCEEDS_MAX_VALUE`; an unencodable
unit (`INVALID`) with multiples ≤ 31 yields `INVALID_UNIT_VALUE`; and
`DRIVER_UNKNOWN` is returned only when both argument checks pass —
unlike e.g. `ready`, `get_band` and `get_module_network_status`, which
return `DRIVER_UNKNOWN` unconditionally when the driver identity is
not SARAN2. -/
theorem setters_validate_before_driver_check :
    (∀ (d ms : Int) (u : T3412_units) (m : Nat), 31 < m →
      set_tau_timer d ms u m = (EXCEEDS_MAX_VALUE, none)) ∧
    (∀ (d ms : Int) (m : Nat), m ≤ 31 →
      set_tau_timer d ms T3412_units.INVALID m = (INVALID_UNIT_VALUE, none)) ∧
    (∀ (d ms : Int) (v : T3324_units) (m : Nat), 31 < m →
      set_active_time d ms v m = (EXCEEDS_MAX_VALUE, none)) ∧
    (∀ (d ms : Int) (m : Nat), m ≤ 31 →
      set_active_time d ms T3324_units.INVALID m = (INVALID_UNIT_VALUE, none)) ∧
    (∀ (d ms : Int) (u : T3412_units) (m : Nat), d ≠ SARAN2 →
      set_tau_timer d ms u m = (DRIVER_UNKNOWN, none) →
      u ≠ T3412_units.INVALID ∧ m ≤ 31) ∧
    (∀ (d ms : Int) (v : T3324_units) (m : Nat), d ≠ SARAN2 →
      set_active_time d ms v m = (DRIVER_UNKNOWN, none) →
      v ≠ T3324_units.INVALID ∧ m ≤ 31) ∧
    (∀ (d : Int), d ≠ SARAN2 →
      (∀ ar t st tmo fuel, ready d ar t st tmo fuel = some DRIVER_UNKNOWN) ∧
      (∀ nu, get_band d nu = (DRIVER_UNKNOWN, none)) ∧
      (∀ cscon cereg npsmr,
        get_module_network_status d cscon cereg npsmr = (DRIVER_UNKNOWN, none))) := by
  refine ⟨?_, ?_, ?_, ?_, ?_, ?_, ?_⟩
  · intro d ms u m hm; simp [set_tau_timer, hm]
  · intro d ms m hm
    have h31 : ¬ m > 31 := by omega
    simp [set_tau_timer, t3412_unit_chars, h31]
  · intro d ms v m hm; simp [set_active_time, hm]
  · intro d ms m hm
    have h31 : ¬ m > 31 := by omega
    simp [set_active_time, t3324_unit_chars, h31]
  · intro d ms u m _hd h
    by_cases hm : m > 31
    · simp [set_tau_timer, hm, EXCEEDS_MAX_VALUE, DRIVER_UNKNOWN] at h
    · refine ⟨?_, by omega⟩
      intro hu
      subst hu
      simp [set_tau_timer, t3412_unit_chars, hm, INVALID_UNIT_VALUE, DRIVER_UNKNOWN] at h
  · intro d ms v m _hd h
    by_cases hm : m > 31
    · simp [set_active_time, hm, EXCEEDS_MAX_VALUE, DRIVER_UNKNOWN] at h
    · refine ⟨?_, by omega⟩
      intro hv
      subst hv
      simp [set_active_time, t3324_unit_chars, hm, INVALID_UNIT_VALUE, DRIVER_UNKNOWN] at h
  · intro d hd
    refine ⟨fun ar t st tmo fuel => ?_, fun nu => ?_, fun cscon cereg npsmr => ?_⟩
    · simp [ready, hd]
    · simp [get_band, hd]
    · simp [get_module_network_status, hd]

/-- C10 witness: at driver = UNDEFINED, the three setter outcomes and
an unconditional-dispatch operation. -/
theorem setters_validate_before_driver_check_witness :
    set_tau_timer UNDEFINED NBIOT_OK T3412_units.DEACT 40 = (EXCEEDS_MAX_VALUE, none) ∧
    set_tau_timer UNDEFINED NBIOT_OK T3412_units.INVALID 5 = (INVALID_UNIT_VALUE, none) ∧
    set_active_time UNDEFINED NBIOT_OK T3324_units.DEACT 40 = (EXCEEDS_MAX_VALUE, none) ∧
    set_active_time UNDEFINED NBIOT_OK T3324_units.INVALID 5 = (INVALID_UNIT_VALUE, none) ∧
    get_band UNDEFINED (NBIOT_OK, 3500) = (DRIVER_UNKNOWN, none) :=
  ⟨setters_validate_before_driver_check.1 UNDEFINED NBIOT_OK T3412_units.DEACT 40 (by decide),
   setters_validate_before_driver_check.2.1 UNDEFINED NBIOT_OK 5 (by decide),
   setters_validate_before_driver_check.2.2.1 UNDEFINED NBIOT_OK T3324_units.DEACT 40 (by decide),
   setters_validate_before_driver_check.2.2.2.1 UNDEFINED NBIOT_OK 5 (by decide),
   (setters_validate_before_driver_check.2.2.2.2.2.2 UNDEFINED (by decide)).2.1 (NBIOT_OK, 3500)⟩

/-- One unfolding of `coap_post_loop` on a positive remainder. -/
theorem coap_post_loop_step (resp : Nat → Int) (fuel r bn : Nat) :
    coap_post_loop resp (fuel + 1) (r + 1) bn =
      (let remaining := r + 1
       let avail := if remaining > 512 then 512 else remaining
       let more : Nat := if remaining > 512 then 1 else 0
       let status := resp bn
       let block := (bn % 256, more, avail)
       if status ≠ NBIOT_OK then some (status, [block])
       else
         match coap_post_loop resp fuel (remaining - avail) (bn + 1) with
         | none => none
         | some (s, l) => some (s, block :: l)) := rfl

/-- Fuel `buffer_len` always suffices for the chunking loop: every
iteration consumes at least one byte of the remainder. -/
theorem coap_post_loop_isSome (resp : Nat → Int) :
    ∀ fuel r bn : Nat, r ≤ fuel → (coap_post_loop resp fuel r bn).isSome := by
  intro fuel
  induction fuel with
  | zero =>
    intro r bn h
    obtain rfl : r = 0 := Nat.le_zero.mp h
    rfl
  | succ fuel ih =>
    intro r bn h
    cases r with
    | zero => rfl
    | succ r' =>
      rw [coap_post_loop_step]
      by_cases hst : resp bn ≠ NBIOT_OK
      · simp [hst]
      · have hrec := ih (r' + 1 - (if r' + 1 > 512 then 512 else r' + 1)) (bn + 1)
          (by split_ifs <;> omega)
        obtain ⟨⟨s, l⟩, hx⟩ := Option.isSome_iff_exists.mp hrec
        simp [hst, hx]

/-- When every block transmission succeeds, the chunking loop starting
with `r` remaining bytes and ordinal block `bn` returns `NBIOT_OK` and
the block list in closed form: ⌈r/512⌉ blocks, numbered modulo 256,
each carrying 512 bytes with more-flag 1 except the last, which
carries the remainder with more-flag 0. -/
theorem coap_post_loop_ok (resp : Nat → Int) (hresp : ∀ i, resp i = NBIOT_OK) :
    ∀ fuel r bn : Nat, r ≤ fuel →
      coap_post_loop resp fuel r bn = some (NBIOT_OK,
        (List.range ((r + 511) / 512)).map (fun i =>
          ((bn + i) % 256,
           if i + 1 < (r + 511) / 512 then 1 else 0,
           if i + 1 < (r + 511) / 512 then 512 else r - 512 * ((r + 511) / 512 - 1)))) := by
  intro fuel
  induction fuel with
  | zero =>
    intro r bn h
    obtain rfl : r = 0 := Nat.le_zero.mp h
    rfl
  | succ fuel ih =>
    intro r bn h
    cases r with
    | zero => rfl
    | succ r' =>
      rw [coap_post_loop_step]
      have hst : resp bn = NBIOT_OK := hresp bn
      by_cases h512 : r' + 1 > 512
      · have hrec := ih (r' + 1 - 512) (bn + 1) (by omega)
        have hN : (r' + 1 + 511) / 512 = (r' + 1 - 512 + 511) / 512 + 1 := by omega
        have hN1 : 1 ≤ (r' + 1 - 512 + 511) / 512 := by omega
        simp only [if_pos h512, hst, ne_eq, not_true_eq_false, if_false, hrec]
        rw [hN, List.range_succ_eq_map, List.map_cons, List.map_map]
        refine congrArg some (congrArg (Prod.mk NBIOT_OK) ?_)
        refine List.cons_eq_cons.mpr ⟨?_, ?_⟩
        · rw [if_pos (show 0 + 1 < (r' + 1 - 512 + 511) / 512 + 1 by omega),
            if_pos (show 0 + 1 < (r' + 1 - 512 + 511) / 512 + 1 by omega),
            Nat.add_zero]
        · refine List.map_congr_left ?_
          intro i hi
          have hi' : i < (r' + 1 - 512 + 511) / 512 := List.mem_range.mp hi
          simp only [Function.comp_apply, Prod.mk.injEq]
          refine ⟨by omega, ?_, ?_⟩
          · exact if_congr (by omega) rfl rfl
          · exact if_congr (by omega) rfl (by omega)
      · have hN1 : (r' + 1 + 511) / 512 = 1 := by omega
        have hrec : coap_post_loop resp fuel (r' + 1 - (r' + 1)) (bn + 1)
            = some (NBIOT_OK, []) := by
          rw [Nat.sub_self]
          cases fuel <;> rfl
        simp only [if_neg h512, hst, ne_eq, not_true_eq_false, if_false, hrec, hN1]
        simp [List.range_succ]

/-- If the first `k` block transmissions succeed and the k-th (counting
calls from `bn`) fails while at least `k + 1` blocks are pending, the
loop returns the failing status, having transmitted exactly `k + 1`
blocks. -/
theorem coap_post_loop_abort (resp : Nat → Int) :
    ∀ fuel r bn k : Nat, r ≤ fuel → k < (r + 511) / 512 →
      (∀ j, j < k → resp (bn + j) = NBIOT_OK) → resp (bn + k) ≠ NBIOT_OK →
      ∃ l, coap_post_loop resp fuel r bn = some (resp (bn + k), l) ∧
        l.length = k + 1 := by
  intro fuel
  induction fuel with
  | zero =>
    intro r bn k h hk _ _
    obtain rfl : r = 0 := Nat.le_zero.mp h
    exact absurd hk (by omega)
  | succ fuel ih =>
    intro r bn k h hk hpre hfail
    cases r with
    | zero => exact absurd hk (by omega)
    | succ r' =>
      rw [coap_post_loop_step]
      cases k with
      | zero =>
        rw [Nat.add_zero] at hfail
        refine ⟨[(bn % 256, if r' + 1 > 512 then 1 else 0,
                  if r' + 1 > 512 then 512 else r' + 1)], ?_, rfl⟩
        simp only [Nat.add_zero, if_pos hfail]
      | succ k' =>
        have h512 : r' + 1 > 512 := by omega
        have hbn : resp bn = NBIOT_OK := by
          have := hpre 0 (by omega)
          rwa [Nat.add_zero] at this
        have hpre' : ∀ j, j < k' → resp (bn + 1 + j) = NBIOT_OK := by
          intro j hj
          have e : bn + 1 + j = bn + (j + 1) := by omega
          rw [e]
          exact hpre (j + 1) (by omega)
        have hfail' : resp (bn + 1 + k') ≠ NBIOT_OK := by
          have e : bn + 1 + k' = bn + (k' + 1) := by omega
          rw [e]
          exact hfail
        obtain ⟨l, hl, hlen⟩ := ih (r' + 1 - 512) (bn + 1) k' (by omega) (by omega)
          hpre' hfail'
        refine ⟨(bn % 256, 1, 512) :: l, ?_, by simp [hlen]⟩
        have e : bn + 1 + k' = bn + (k' + 1) := by omega
        rw [e] at hl
        simp only [if_pos h512, hbn, ne_eq, not_true_eq_false, if_false, hl]

set_option maxRecDepth 40000 in
/-- C4 counterexample: a POST body of 131073 bytes produces 257 blocks,
and the block at index 256 is passed to the modem with block number 0
(the `uint8_t send_block_number` has wrapped), not 256 as the claim's
"consecutive sequence 0,1,…,N−1" requires. -/
theorem coap_post_block_number_wraps :
    (coap_post SARAN2 NBIOT_OK NBIOT_OK (fun _ => NBIOT_OK) 131073).2.length = 257 ∧
    ((coap_post SARAN2 NBIOT_OK NBIOT_OK (fun _ => NBIOT_OK) 131073).2.getD 256
        (999, 999, 999)).1 = 0 ∧
    (0 : Nat) ≠ 256 := by
  refine ⟨?_, ?_, by decide⟩ <;> decide

/-- C4 as amended: with the SARAN2 driver, after `load_profile` and
`select_coap_at_interface` succeed, a POST body of length L > 0 with
all block transmissions succeeding sends exactly ⌈L/512⌉ blocks; the
i-th transmitted block is passed block number i mod 256 (the
consecutive sequence 0,1,…,N−1 whenever N ≤ 256, since the counter is
a `uint8_t`), carries 512 bytes with more-flag 1 for every block
except the last, and the last carries the remainder with more-flag 0
(so L = 512 gives a single block with more-flag 0); and if the k-th
transmission is the first to return non-OK, the loop aborts having
sent exactly k + 1 blocks and returns that status. -/
theorem coap_post_block_structure :
    (∀ (L : Nat) (resp : Nat → Int), 0 < L → (∀ i, resp i = NBIOT_OK) →
      coap_post SARAN2 NBIOT_OK NBIOT_OK resp L =
        (NBIOT_OK, (List.range ((L + 511) / 512)).map (fun i =>
          (i % 256,
           if i + 1 < (L + 511) / 512 then 1 else 0,
           if i + 1 < (L + 511) / 512 then 512 else L - 512 * ((L + 511) / 512 - 1))))) ∧
    (∀ (L : Nat) (resp : Nat → Int) (k : Nat), k < (L + 511) / 512 →
      (∀ j, j < k → resp j = NBIOT_OK) → resp k ≠ NBIOT_OK →
      (coap_post SARAN2 NBIOT_OK NBIOT_OK resp L).1 = resp k ∧
      (coap_post SARAN2 NBIOT_OK NBIOT_OK resp L).2.length = k + 1) := by
  constructor
  · intro L resp _hL hresp
    have hloop := coap_post_loop_ok resp hresp L L 0 (Nat.le_refl L)
    simp [coap_post, hloop]
  · intro L resp k hk hpre hfail
    have hpre' : ∀ j, j < k → resp (0 + j) = NBIOT_OK := by
      intro j hj
      rw [Nat.zero_add]
      exact hpre j hj
    have hfail' : resp (0 + k) ≠ NBIOT_OK := by
      rw [Nat.zero_add]
      exact hfail
    obtain ⟨l, hl, hlen⟩ := coap_post_loop_abort resp L L 0 k (Nat.le_refl L) hk
      hpre' hfail'
    rw [Nat.zero_add] at hl
    constructor <;> simp [coap_post, hl, hlen]

/-- C4 witness: the spec's boundary case, a POST of exactly 512 bytes
sends the single block (0, more = 0, 512 bytes). -/
theorem coap_post_block_structure_witness :
    coap_post SARAN2 NBIOT_OK NBIOT_OK (fun _ => NBIOT_OK) 512 =
      (NBIOT_OK, [(0, 0, 512)]) := by
  have h := coap_post_block_structure.1 512 (fun _ => NBIOT_OK) (by decide)
    (fun _ => rfl)
  rw [h]
  rfl
